import Mathlib

/-!
Verification of the `useUserProfile` hook
(`src/components/UserProfile/useUserProfile.ts`) against its
natural-language specification.

The hook keeps a `UserProfileState` record and exposes four operations:
`fetchUser`, `updateUser`, `setEditing`, `clearError`.  Each asynchronous
operation is split into its two synchronous `setState` phases exactly as
they appear in the source: the phase executed when the operation is called
("start") and the phase executed when the awaited remote call settles
("settle").  An interleaving model (`HookConfig` / `HookEvent` / `run`)
tracks the in-flight remote calls so that overlapping operations and
rebinds to a new `userId` can be expressed.
-/

/-- Mirrors `UserRole` in `types.ts`: a closed enumeration. -/
inductive UserRole
  | admin
  | user
  | guest
deriving DecidableEq, Repr

/-- Mirrors the `User` interface in `types.ts`.  Optional fields become
`Option`; the timestamps are opaque strings, as in the source. -/
structure User where
  id : String
  email : String
  firstName : String
  lastName : String
  avatar : Option String := none
  bio : Option String := none
  role : UserRole
  createdAt : String
  updatedAt : String
deriving DecidableEq, Repr

/-- Mirrors the `UserProfileState` interface in `types.ts`:
user, isLoading, error, isEditing. -/
structure UserProfileState where
  user : Option User
  isLoading : Bool
  error : Option String
  isEditing : Bool
deriving DecidableEq, Repr

/-- Mirrors `UpdateUserPayload` in `types.ts`: a record of optional
editable fields. -/
structure UpdateUserPayload where
  firstName : Option String := none
  lastName : Option String := none
  bio : Option String := none
  avatar : Option String := none
deriving DecidableEq, Repr

/-- The initial state passed to `useState` in `useUserProfile.ts`:
user null, isLoading true, error null, isEditing false. -/
def initialState : UserProfileState :=
  { user := none, isLoading := true, error := none, isEditing := false }

/-- Outcome of an awaited remote call, as the `try/catch` in the source
distinguishes the cases: a response with `ok` true and a JSON body, a
response with `ok` false carrying a `statusText`, a rejection with an
`Error` carrying a message, or a rejection with a non-`Error` value. -/
inductive RemoteOutcome
  | ok (user : User)
  | httpError (statusText : String)
  | rejectedError (message : String)
  | rejectedOther
deriving DecidableEq, Repr

/-- First `setState` of `fetchUser`:
`setState((prev) => (\x7b ...prev, isLoading: true, error: null \x7d))`. -/
def fetchUserStart (s : UserProfileState) : UserProfileState :=
  { s with isLoading := true, error := none }

/-- The `setState` executed when the awaited call inside `fetchUser`
settles.  On `ok` the body user is stored and `isLoading` cleared (the
spread keeps the other fields).  On a non-ok response the source throws
an `Error` with message "Failed to fetch user: " ++ statusText, which the
`catch` then stores since it is an `Error`; a rejected `Error` has its
message stored verbatim; a non-`Error` rejection stores the fallback
"Failed to fetch user".  In every catch branch the spread keeps `user`
and `isEditing` unchanged. -/
def fetchUserSettle (outcome : RemoteOutcome) (s : UserProfileState) :
    UserProfileState :=
  match outcome with
  | .ok u => { s with user := some u, isLoading := false }
  | .httpError statusText =>
      { s with error := some ("Failed to fetch user: " ++ statusText),
               isLoading := false }
  | .rejectedError message =>
      { s with error := some message, isLoading := false }
  | .rejectedOther =>
      { s with error := some "Failed to fetch user", isLoading := false }

/-- First `setState` of `updateUser`, executed only after the
`if (!state.user) return` guard passes; the same line as in `fetchUser`. -/
def updateUserStart (s : UserProfileState) : UserProfileState :=
  { s with isLoading := true, error := none }

/-- The `setState` executed when the awaited PATCH call inside
`updateUser` settles.  On `ok` the returned user replaces the held one
wholesale and `isEditing` is cleared.  The error branches mirror the
`catch` exactly as in `fetchUserSettle`, with "update" in the messages;
they leave `user` and `isEditing` untouched. -/
def updateUserSettle (outcome : RemoteOutcome) (s : UserProfileState) :
    UserProfileState :=
  match outcome with
  | .ok updatedUser =>
      { s with user := some updatedUser, isLoading := false,
               isEditing := false }
  | .httpError statusText =>
      { s with error := some ("Failed to update user: " ++ statusText),
               isLoading := false }
  | .rejectedError message =>
      { s with error := some message, isLoading := false }
  | .rejectedOther =>
      { s with error := some "Failed to update user", isLoading := false }

/-- Mirrors the `setEditing` callback. -/
def setEditing (isEditing : Bool) (s : UserProfileState) : UserProfileState :=
  { s with isEditing := isEditing }

/-- Mirrors the `clearError` callback. -/
def clearError (s : UserProfileState) : UserProfileState :=
  { s with error := none }

/-- A hook instance together with its in-flight remote calls.  Each
pending fetch records the `userId` the closure captured when it was
issued; each pending update records the captured `userId` and the
payload sent.  Issuing a call appends to the list; a call resolving is
removed from it. -/
structure HookConfig where
  state : UserProfileState
  pendingFetches : List String
  pendingUpdates : List (String × UpdateUserPayload)
deriving DecidableEq, Repr

/-- Calling `fetchUser` with captured `userId`: runs the first
`setState` and issues the GET request. -/
def callFetchUser (userId : String) (c : HookConfig) : HookConfig :=
  { c with state := fetchUserStart c.state,
           pendingFetches := c.pendingFetches ++ [userId] }

/-- Calling `updateUser`: the source first checks
`if (!state.user) return;` and otherwise runs the first `setState` and
issues the PATCH request.  Nothing else gates the call: in particular no
check that another update is already in flight. -/
def callUpdateUser (userId : String) (payload : UpdateUserPayload)
    (c : HookConfig) : HookConfig :=
  if c.state.user = none then c
  else
    { c with state := updateUserStart c.state,
             pendingUpdates := c.pendingUpdates ++ [(userId, payload)] }

/-- The i-th pending fetch settles with `outcome`.  The continuation in
the source applies its `setState` unconditionally: it never compares the
captured `userId` with the currently bound one and holds no generation
token, so the settle phase runs whatever identity the request was issued
for.  An out-of-range index settles nothing. -/
def settleFetch (i : Nat) (outcome : RemoteOutcome) (c : HookConfig) :
    HookConfig :=
  if i < c.pendingFetches.length then
    { c with state := fetchUserSettle outcome c.state,
             pendingFetches := c.pendingFetches.eraseIdx i }
  else c

/-- The i-th pending update settles with `outcome`; like `settleFetch`,
the continuation applies unconditionally. -/
def settleUpdate (i : Nat) (outcome : RemoteOutcome) (c : HookConfig) :
    HookConfig :=
  if i < c.pendingUpdates.length then
    { c with state := updateUserSettle outcome c.state,
             pendingUpdates := c.pendingUpdates.eraseIdx i }
  else c

/-- The events the hook instance can observe: its operations being
called (with the `userId` their closures captured) and in-flight calls
settling in any order. -/
inductive HookEvent
  | callFetch (userId : String)
  | settleFetch (i : Nat) (outcome : RemoteOutcome)
  | callUpdate (userId : String) (payload : UpdateUserPayload)
  | settleUpdate (i : Nat) (outcome : RemoteOutcome)
  | callSetEditing (b : Bool)
  | callClearError
deriving DecidableEq, Repr

/-- One event applied to a configuration. -/
def stepEvent (e : HookEvent) (c : HookConfig) : HookConfig :=
  match e with
  | .callFetch userId => callFetchUser userId c
  | .settleFetch i outcome => settleFetch i outcome c
  | .callUpdate userId payload => callUpdateUser userId payload c
  | .settleUpdate i outcome => settleUpdate i outcome c
  | .callSetEditing b => { c with state := setEditing b c.state }
  | .callClearError => { c with state := clearError c.state }

/-- A sequence of events applied in order. -/
def run (events : List HookEvent) (c : HookConfig) : HookConfig :=
  events.foldl (fun c e => stepEvent e c) c

/-- Mounting the hook with `userId`: `useState` installs `initialState`
and the `useEffect` immediately calls `fetchUser` for that identity.
Rebinding to a new identity later is the event `HookEvent.callFetch`
with the new `userId` (the effect re-runs when `userId` changes). -/
def initConfig (userId : String) : HookConfig :=
  callFetchUser userId
    { state := initialState, pendingFetches := [], pendingUpdates := [] }

/-- A concrete user fixture (the one in the repository's tests). -/
def userA : User :=
  { id := "user-123", email := "john.doe@example.com", firstName := "John",
    lastName := "Doe", role := .user, createdAt := "2025-01-01T00:00:00Z",
    updatedAt := "2025-12-16T00:00:00Z" }

/-- A second, distinct user fixture, bound to another identity. -/
def userB : User :=
  { id := "user-456", email := "jane@example.com", firstName := "Jane",
    lastName := "Doe", role := .user, createdAt := "2025-01-01T00:00:00Z",
    updatedAt := "2025-12-16T00:00:00Z" }

/-- A concrete edit payload fixture. -/
def payloadJane : UpdateUserPayload := { firstName := some "Jane" }

/-- A configuration in the ready state: an entity is held, nothing is
loading, a stale error message is still displayed, edit mode is on. -/
def cfgReady : HookConfig :=
  { state := { user := some userA, isLoading := false,
               error := some "old error", isEditing := true },
    pendingFetches := [], pendingUpdates := [] }

/-- The published-state invariant of the spec: a non-absent error implies
the loading flag is false. -/
def errorImpliesNotLoading (s : UserProfileState) : Prop :=
  s.error = none ∨ s.isLoading = false

/-- C1 fails on the code: mount bound to "idA" (its fetch in flight),
rebind to "idB" (second fetch issued), "idB"'s fetch resolves first with
userB, then "idA"'s stale fetch resolves with userA — and its handler
runs unguarded, so the settled state holds userA, the result of the
previously bound identity, not userB. -/
theorem C1_counterexample :
    (run [HookEvent.callFetch "idB",
          HookEvent.settleFetch 1 (.ok userB),
          HookEvent.settleFetch 0 (.ok userA)]
        (initConfig "idA")).state.user = some userA ∧ userA ≠ userB := by
  constructor
  · rfl
  · decide

/-- C1 amended: the hook has no staleness guard, so after bind(idA) then
bind(idB) the settled state reflects whichever fetch resolves last — when
the fetch issued for the previously bound identity idA resolves after
idB's fetch, its result is applied and overwrites idB's. -/
theorem C1_amended_last_resolved_wins (idA idB : String) (uA uB : User) :
    (run [HookEvent.callFetch idB,
          HookEvent.settleFetch 1 (.ok uB),
          HookEvent.settleFetch 0 (.ok uA)]
        (initConfig idA)).state.user = some uA := by
  rfl

/-- C2 fails on the code: with an entity held, submit once (update now in
flight), then submit again before it settles — the second call issues a
second remote PATCH (two updates pending), because `updateUser` only
checks `state.user`, never whether an update is already in flight. -/
theorem C2_counterexample :
    (run [HookEvent.settleFetch 0 (.ok userA),
          HookEvent.callSetEditing true,
          HookEvent.callUpdate "user-123" payloadJane,
          HookEvent.callUpdate "user-123" payloadJane]
        (initConfig "user-123")).pendingUpdates.length = 2 := by
  rfl

/-- C2 amended: the controller enforces no single-flight guard — whenever
an entity is held, every `updateUser` call issues a remote PATCH and runs
the loading transition, even while another update is already in flight. -/
theorem C2_amended_no_single_flight_guard (c : HookConfig) (userId : String)
    (payload : UpdateUserPayload) (h : c.state.user ≠ none) :
    (callUpdateUser userId payload c).pendingUpdates
        = c.pendingUpdates ++ [(userId, payload)]
      ∧ (callUpdateUser userId payload c).state = updateUserStart c.state := by
  unfold callUpdateUser
  rw [if_neg h]
  exact ⟨rfl, rfl⟩

/-- Witness for C2's amended theorem at a concrete in-flight
configuration. -/
theorem C2_amended_witness :
    (callUpdateUser "user-123" payloadJane
        { state := { user := some userA, isLoading := true, error := none,
                     isEditing := true },
          pendingFetches := [],
          pendingUpdates := [("user-123", payloadJane)] }).pendingUpdates
      = [("user-123", payloadJane), ("user-123", payloadJane)] := by
  have h := C2_amended_no_single_flight_guard
    { state := { user := some userA, isLoading := true, error := none,
                 isEditing := true },
      pendingFetches := [],
      pendingUpdates := [("user-123", payloadJane)] }
    "user-123" payloadJane (by decide)
  exact h.1

/-- C3 confirmed: `updateUser` called with no entity held is a complete
no-op — the configuration is unchanged, so no remote PATCH is issued and
no field of the state (in particular `isEditing` and `isLoading`) moves. -/
theorem C3_updateUser_noop_without_user (c : HookConfig) (userId : String)
    (payload : UpdateUserPayload) (h : c.state.user = none) :
    callUpdateUser userId payload c = c := by
  unfold callUpdateUser
  rw [if_pos h]

/-- Witness for C3 at the freshly mounted configuration, whose fetch has
not yet resolved, so no user is held. -/
theorem C3_updateUser_noop_without_user_witness :
    callUpdateUser "user-123" payloadJane (initConfig "user-123")
      = initConfig "user-123" :=
  C3_updateUser_noop_without_user (initConfig "user-123") "user-123"
    payloadJane (by decide)

/-- C4 confirmed: after a successful update the published `isEditing` is
false and the published entity is exactly the user the remote service
returned — for every previously held state, so the replacement is
wholesale and independent of the prior entity and of the submitted
payload (which the settle handler never reads). -/
theorem C4_update_success_replaces_entity (s : UserProfileState) (u : User) :
    (updateUserSettle (.ok u) s).isEditing = false
      ∧ (updateUserSettle (.ok u) s).user = some u :=
  ⟨rfl, rfl⟩

/-- C5 confirmed: after a failed update — non-ok response, rejected
`Error`, or rejected non-`Error` — the entity held before the attempt is
unchanged and the error field is set. -/
theorem C5_update_failure_retains_entity (s : UserProfileState)
    (statusText message : String) :
    ((updateUserSettle (.httpError statusText) s).user = s.user
      ∧ (updateUserSettle (.httpError statusText) s).error
          = some ("Failed to update user: " ++ statusText))
    ∧ ((updateUserSettle (.rejectedError message) s).user = s.user
      ∧ (updateUserSettle (.rejectedError message) s).error = some message)
    ∧ ((updateUserSettle .rejectedOther s).user = s.user
      ∧ (updateUserSettle .rejectedOther s).error
          = some "Failed to update user") :=
  ⟨⟨rfl, rfl⟩, ⟨rfl, rfl⟩, ⟨rfl, rfl⟩⟩

/-- C6 fails on the code: bind, fetch userA successfully, manually
refetch, and let the refetch fail — the catch branch spreads the previous
state, so the entity is retained (still userA, not cleared to absent)
while the error message is stored. -/
theorem C6_counterexample :
    (run [HookEvent.settleFetch 0 (.ok userA),
          HookEvent.callFetch "user-123",
          HookEvent.settleFetch 0 (.httpError "Not Found")]
        (initConfig "user-123")).state.user = some userA
      ∧ some userA ≠ (none : Option User) := by
  exact ⟨rfl, by decide⟩

/-- C6 amended: for every fetch that fails, the resulting state stores
the error message and leaves the entity unchanged — retained, not
cleared; it is absent only if it already was. -/
theorem C6_amended_fetch_failure_retains_entity (s : UserProfileState)
    (statusText message : String) :
    ((fetchUserSettle (.httpError statusText) s).user = s.user
      ∧ (fetchUserSettle (.httpError statusText) s).error
          = some ("Failed to fetch user: " ++ statusText))
    ∧ ((fetchUserSettle (.rejectedError message) s).user = s.user
      ∧ (fetchUserSettle (.rejectedError message) s).error = some message)
    ∧ ((fetchUserSettle .rejectedOther s).user = s.user
      ∧ (fetchUserSettle .rejectedOther s).error
          = some "Failed to fetch user") :=
  ⟨⟨rfl, rfl⟩, ⟨rfl, rfl⟩, ⟨rfl, rfl⟩⟩

/-- C7 fails on the code: when the remote failure carries a status
description, the published string is "Failed to fetch user: Not Found" —
the template is "Failed to OPERATION user: STATUS", not the claimed
"Failed to OPERATION: STATUS" (which would read "Failed to fetch: Not
Found"). -/
theorem C7_counterexample :
    (fetchUserSettle (.httpError "Not Found") initialState).error
        = some "Failed to fetch user: Not Found"
      ∧ "Failed to fetch user: Not Found" ≠ "Failed to fetch: Not Found" := by
  exact ⟨rfl, by decide⟩

/-- C7 amended: on failure the published error string is: with a status
description, "Failed to OPERATION user: STATUS" (the word "user" included);
otherwise a carried message verbatim; otherwise the fallback
"Failed to OPERATION user" — with OPERATION being fetch or update. -/
theorem C7_amended_error_message_derivation (s : UserProfileState)
    (statusText message : String) :
    (fetchUserSettle (.httpError statusText) s).error
        = some ("Failed to fetch user: " ++ statusText)
      ∧ (fetchUserSettle (.rejectedError message) s).error = some message
      ∧ (fetchUserSettle .rejectedOther s).error = some "Failed to fetch user"
      ∧ (updateUserSettle (.httpError statusText) s).error
          = some ("Failed to update user: " ++ statusText)
      ∧ (updateUserSettle (.rejectedError message) s).error = some message
      ∧ (updateUserSettle .rejectedOther s).error
          = some "Failed to update user" :=
  ⟨rfl, rfl, rfl, rfl, rfl, rfl⟩

/-- C10 confirmed: each failure branch of `updateUser` produces exactly
the previous state with only `error` and `isLoading` changed — in
particular `isEditing` (and the entity) are left as they were when the
update was submitted. -/
theorem C10_update_failure_preserves_editing (s : UserProfileState)
    (statusText message : String) :
    updateUserSettle (.httpError statusText) s
        = { s with error := some ("Failed to update user: " ++ statusText),
                   isLoading := false }
      ∧ updateUserSettle (.rejectedError message) s
          = { s with error := some message, isLoading := false }
      ∧ updateUserSettle .rejectedOther s
          = { s with error := some "Failed to update user",
                     isLoading := false } :=
  ⟨rfl, rfl, rfl⟩

/-- C9 confirmed: the first state a fetch publishes, and the first state
an update that passes the entity guard publishes, has loading set and any
previously displayed error erased. -/
theorem C9_operation_start_sets_loading_clears_error (c : HookConfig)
    (userId : String) (payload : UpdateUserPayload) :
    ((callFetchUser userId c).state.isLoading = true
      ∧ (callFetchUser userId c).state.error = none)
    ∧ (c.state.user ≠ none →
        (callUpdateUser userId payload c).state.isLoading = true
          ∧ (callUpdateUser userId payload c).state.error = none) := by
  refine ⟨⟨rfl, rfl⟩, fun h => ?_⟩
  unfold callUpdateUser
  rw [if_neg h]
  exact ⟨rfl, rfl⟩

/-- Witness for C9 at a ready configuration that still displays a stale
error: both operation starts set loading and erase it. -/
theorem C9_operation_start_witness :
    (callUpdateUser "user-123" payloadJane cfgReady).state.isLoading = true
      ∧ (callUpdateUser "user-123" payloadJane cfgReady).state.error = none :=
  (C9_operation_start_sets_loading_clears_error cfgReady "user-123"
    payloadJane).2 (by decide)

/-- Every settle branch of `fetchUser` clears the loading flag. -/
theorem fetchUserSettle_not_loading (outcome : RemoteOutcome)
    (s : UserProfileState) : (fetchUserSettle outcome s).isLoading = false := by
  cases outcome <;> rfl

/-- Every settle branch of `updateUser` clears the loading flag. -/
theorem updateUserSettle_not_loading (outcome : RemoteOutcome)
    (s : UserProfileState) : (updateUserSettle outcome s).isLoading = false := by
  cases outcome <;> rfl

/-- Each event preserves the invariant: operation starts clear the error,
settles clear the loading flag, `setEditing` touches neither field, and
`clearError` clears the error. -/
theorem stepEvent_preserves_invariant (e : HookEvent) (c : HookConfig)
    (h : errorImpliesNotLoading c.state) :
    errorImpliesNotLoading (stepEvent e c).state := by
  cases e with
  | callFetch userId => exact Or.inl rfl
  | settleFetch i outcome =>
      show errorImpliesNotLoading (settleFetch i outcome c).state
      unfold settleFetch
      split
      · exact Or.inr (fetchUserSettle_not_loading outcome c.state)
      · exact h
  | callUpdate userId payload =>
      show errorImpliesNotLoading (callUpdateUser userId payload c).state
      unfold callUpdateUser
      split
      · exact h
      · exact Or.inl rfl
  | settleUpdate i outcome =>
      show errorImpliesNotLoading (settleUpdate i outcome c).state
      unfold settleUpdate
      split
      · exact Or.inr (updateUserSettle_not_loading outcome c.state)
      · exact h
  | callSetEditing b => exact h
  | callClearError => exact Or.inl rfl

/-- The invariant carries over any run of events. -/
theorem run_preserves_invariant (events : List HookEvent) (c : HookConfig)
    (h : errorImpliesNotLoading c.state) :
    errorImpliesNotLoading (run events c).state := by
  induction events generalizing c with
  | nil => exact h
  | cons e rest ih =>
      exact ih (stepEvent e c) (stepEvent_preserves_invariant e c h)


/-- C8 confirmed: in every state reachable from a mounted hook — however
calls and settles interleave — a non-absent error implies the loading
flag is false; the two are never both set. -/
theorem C8_error_implies_not_loading (userId : String)
    (events : List HookEvent) (e : String)
    (h : (run events (initConfig userId)).state.error = some e) :
    (run events (initConfig userId)).state.isLoading = false := by
  have hinv := run_preserves_invariant events (initConfig userId) (Or.inl rfl)
  rcases hinv with h0 | h1
  · rw [h] at h0
    exact absurd h0 (by simp)
  · exact h1

/-- Witness for C8 on the trace where the mount's fetch fails: the error
is the not-found message and loading is indeed false. -/
theorem C8_error_implies_not_loading_witness :
    (run [HookEvent.settleFetch 0 (.httpError "Not Found")]
        (initConfig "user-123")).state.isLoading = false :=
  C8_error_implies_not_loading "user-123"
    [HookEvent.settleFetch 0 (.httpError "Not Found")]
    "Failed to fetch user: Not Found" (by decide)
